import Mathlib

/-!
Verification of the G3D attribute model against `src/g3d.h` (ara3d/g3d).

The C++ header is shallowly embedded: `int32_t` fields become `Int`, enums become
named `Int` constants (the enumerator values), `std::map` registries become
association lists with `at`-style lookups that return `Except` instead of
throwing, raw pointers become `Nat` addresses with `0` as the null pointer, and
every function that can throw `std::runtime_error` or `std::out_of_range`
returns `Except String`.

The container framing (BFAST) layer has no code under `src/`; it is modelled
from the specification and clearly marked as such below.
-/

/-! ## DataType enum (src/g3d.h lines 95-112) -/

def dt_uint8 : Int := 0
def dt_uint16 : Int := 1
def dt_uint32 : Int := 2
def dt_uint64 : Int := 3
def dt_uint128 : Int := 4
def dt_int8 : Int := 5
def dt_int16 : Int := 6
def dt_int32 : Int := 7
def dt_int64 : Int := 8
def dt_int128 : Int := 9
def dt_float16 : Int := 10
def dt_float32 : Int := 11
def dt_float64 : Int := 12
def dt_float128 : Int := 13
def dt_invalid : Int := 14

/-! ## Association enum (src/g3d.h lines 115-124) -/

def assoc_vertex : Int := 0
def assoc_face : Int := 1
def assoc_corner : Int := 2
def assoc_edge : Int := 3
def assoc_object : Int := 4
def assoc_none : Int := 5
def assoc_invalid : Int := 6

/-! ## AttributeType enum (src/g3d.h lines 127-150) -/

def attr_custom : Int := 0
def attr_coordinate : Int := 1
def attr_index : Int := 2
def attr_faceindex : Int := 3
def attr_facesize : Int := 4
def attr_normal : Int := 5
def attr_binormal : Int := 6
def attr_tangent : Int := 7
def attr_materialid : Int := 8
def attr_polygroup : Int := 9
def attr_uv : Int := 10
def attr_color : Int := 11
def attr_smoothing : Int := 12
def attr_crease : Int := 13
def attr_hole : Int := 14
def attr_invisibility : Int := 15
def attr_selection : Int := 16
def attr_pervertex : Int := 17
def attr_mapchannel_data : Int := 18
def attr_mapchannel_index : Int := 19
def attr_invalid : Int := 20

/-- The five semantic `int32_t` fields of `AttributeDescriptor`
(src/g3d.h lines 154-161); the three `_pad` fields carry no information and are
handled only by the binary encoder. -/
structure AttributeDescriptor where
  _association : Int
  _attribute_type : Int
  _attribute_type_index : Int
  _data_arity : Int
  _data_type : Int
deriving DecidableEq, Repr

/-- `AttributeDescriptor::validate` (src/g3d.h lines 163-168): the four checks
run in source order (association, attribute_type, data_arity, data_type), each
throwing the source's message. -/
def AttributeDescriptor.validate (d : AttributeDescriptor) : Except String Unit :=
  if d._association < 0 ∨ assoc_invalid ≤ d._association then
    .error "association out of range"
  else if d._attribute_type < 0 ∨ attr_invalid ≤ d._attribute_type then
    .error "attribute type out of range"
  else if d._data_arity ≤ 0 then
    .error "data arity must be greater than zero"
  else if d._data_type < 0 ∨ dt_invalid ≤ d._data_type then
    .error "data type out of range"
  else .ok ()

/-- Static `AttributeDescriptor::data_type_size(DataType)` (src/g3d.h lines
201-219): the switch over the fourteen concrete data types, with the `default`
branch throwing. -/
def data_type_size (dt : Int) : Except String Int :=
  if dt = dt_uint8 then .ok 1
  else if dt = dt_uint16 then .ok 2
  else if dt = dt_uint32 then .ok 4
  else if dt = dt_uint64 then .ok 8
  else if dt = dt_uint128 then .ok 16
  else if dt = dt_int8 then .ok 1
  else if dt = dt_int16 then .ok 2
  else if dt = dt_int32 then .ok 4
  else if dt = dt_int64 then .ok 8
  else if dt = dt_int128 then .ok 16
  else if dt = dt_float16 then .ok 2
  else if dt = dt_float32 then .ok 4
  else if dt = dt_float64 then .ok 8
  else if dt = dt_float128 then .ok 16
  else .error "invalid data type"

/-- `AttributeDescriptor::reverse_map` (src/g3d.h lines 221-226): iterate the
forward map in key order and assign `r[kv.second] = kv.first`, later entries
overwriting earlier ones with the same name. -/
def reverse_map (m : List (Int × String)) : List (String × Int) :=
  m.foldl (fun r kv =>
    if r.any (fun p => p.1 == kv.2) then
      r.map (fun p => if p.1 == kv.2 then (p.1, kv.1) else p)
    else r ++ [(kv.2, kv.1)]) []

/-- `std::map<int32_t, string>::at`: lookup by key, throwing on a miss. -/
def map_at_str (m : List (Int × String)) (k : Int) : Except String String :=
  match m.find? (fun kv => kv.1 == k) with
  | some kv => .ok kv.2
  | none => .error "map::at"

/-- `std::map<string, int32_t>::at`: lookup by name, throwing on a miss. -/
def map_at_int (m : List (String × Int)) (k : String) : Except String Int :=
  match m.find? (fun kv => kv.1 == k) with
  | some kv => .ok kv.2
  | none => .error "map::at"

/-- `AttributeDescriptor::data_types_to_strings` (src/g3d.h lines 228-247),
entries in the source's (sorted) key order. -/
def data_types_to_strings : List (Int × String) :=
  [(dt_uint8, "uint8"), (dt_uint16, "uint16"), (dt_uint32, "uint32"),
   (dt_uint64, "uint64"), (dt_uint128, "uint128"),
   (dt_int8, "int8"), (dt_int16, "int16"), (dt_int32, "int32"),
   (dt_int64, "int64"), (dt_int128, "int128"),
   (dt_float16, "float16"), (dt_float32, "float32"), (dt_float64, "float64"),
   (dt_float128, "float128"), (dt_invalid, "invalid")]

/-- `AttributeDescriptor::data_types_from_strings` (src/g3d.h lines 249-252). -/
def data_types_from_strings : List (String × Int) :=
  reverse_map data_types_to_strings

/-- `AttributeDescriptor::associations_to_strings` (src/g3d.h lines 254-265). -/
def associations_to_strings : List (Int × String) :=
  [(assoc_vertex, "vertex"), (assoc_face, "face"), (assoc_corner, "corner"),
   (assoc_edge, "edge"), (assoc_object, "object"), (assoc_none, "none"),
   (assoc_invalid, "invalid")]

/-- `AttributeDescriptor::associations_from_strings` (src/g3d.h lines 267-270). -/
def associations_from_strings : List (String × Int) :=
  reverse_map associations_to_strings

/-- `AttributeDescriptor::attribute_types_to_strings` (src/g3d.h lines 272-295).
As in the source, there is no entry for `attr_mapchannel_data` (18) or
`attr_mapchannel_index` (19); the table jumps from `attr_pervertex` (17) to
`attr_invalid` (20). -/
def attribute_types_to_strings : List (Int × String) :=
  [(attr_custom, "custom"), (attr_coordinate, "coordinate"), (attr_index, "index"),
   (attr_faceindex, "faceindex"), (attr_facesize, "facesize"), (attr_normal, "normal"),
   (attr_binormal, "binormal"), (attr_tangent, "tangent"), (attr_materialid, "materialid"),
   (attr_polygroup, "polygroup"), (attr_uv, "uv"), (attr_color, "color"),
   (attr_smoothing, "smoothing"), (attr_crease, "crease"), (attr_hole, "hole"),
   (attr_invisibility, "invisibility"), (attr_selection, "selection"),
   (attr_pervertex, "pervertex"), (attr_invalid, "invalid")]

/-- `AttributeDescriptor::attribute_types_from_strings` (src/g3d.h lines 297-300). -/
def attribute_types_from_strings : List (String × Int) :=
  reverse_map attribute_types_to_strings

/-- `AttributeDescriptor::data_type_to_string` (src/g3d.h lines 302-304). -/
def data_type_to_string (dt : Int) : Except String String :=
  map_at_str data_types_to_strings dt

/-- `AttributeDescriptor::data_type_from_string` (src/g3d.h lines 306-308). -/
def data_type_from_string (s : String) : Except String Int :=
  map_at_int data_types_from_strings s

/-- `AttributeDescriptor::association_to_string` (src/g3d.h lines 310-312). -/
def association_to_string (assoc : Int) : Except String String :=
  map_at_str associations_to_strings assoc

/-- `AttributeDescriptor::association_from_string` (src/g3d.h lines 314-316). -/
def association_from_string (s : String) : Except String Int :=
  map_at_int associations_from_strings s

/-- `AttributeDescriptor::attribute_type_to_string` (src/g3d.h lines 318-320). -/
def attribute_type_to_string (attr : Int) : Except String String :=
  map_at_str attribute_types_to_strings attr

/-- `AttributeDescriptor::attribute_type_from_string` (src/g3d.h lines 322-324). -/
def attribute_type_from_string (s : String) : Except String Int :=
  map_at_int attribute_types_from_strings s

/-- `AttributeDescriptor::to_string` (src/g3d.h lines 338-347). The second
token is produced by `attribute_type_string()` (lines 334-336), which in the
source passes `data_type()` — not `attribute_type()` — to
`attribute_type_to_string`; the embedding reproduces that call exactly. -/
def AttributeDescriptor.to_string (d : AttributeDescriptor) : Except String String :=
  match association_to_string d._association with
  | .error e => .error e
  | .ok a =>
    match attribute_type_to_string d._data_type with
    | .error e => .error e
    | .ok t =>
      match data_type_to_string d._data_type with
      | .error e => .error e
      | .ok dt =>
        .ok ("g3d:" ++ a ++ ":" ++ t ++ ":" ++ toString d._attribute_type_index
          ++ ":" ++ dt ++ ":" ++ toString d._data_arity)

/-- Loop body of the `getline`-based `AttributeDescriptor::split` (src/g3d.h
lines 349-356): a delimiter flushes the current token, and `getline` yields no
further token when the delimiter ended the input. -/
def split_go (delim : Char) : List Char → List Char → List String
  | [], cur => [String.mk cur.reverse]
  | c :: cs, cur =>
    if c = delim then
      String.mk cur.reverse :: (if cs.isEmpty then [] else split_go delim cs [])
    else split_go delim cs (c :: cur)

/-- `AttributeDescriptor::split` (src/g3d.h lines 358-362): `getline` on an
empty stream fails immediately, so the empty string yields no tokens. -/
def AttributeDescriptor.split (s : String) (delim : Char) : List String :=
  if s.isEmpty then [] else split_go delim s.data []

/-- `std::stoi`: skip leading whitespace, optional sign, then at least one
decimal digit (throwing `invalid_argument` otherwise); parsing stops at the
first non-digit; values outside `int` range throw `out_of_range`. -/
def stoi (s : String) : Except String Int :=
  let cs := s.data.dropWhile Char.isWhitespace
  let sc : Int × List Char :=
    match cs with
    | '-' :: r => (-1, r)
    | '+' :: r => (1, r)
    | r => (1, r)
  let ds := sc.2.takeWhile Char.isDigit
  if ds.isEmpty then .error "invalid stoi argument"
  else
    let v : Int := sc.1 * (ds.foldl (fun n c => n * 10 + (c.toNat - 48)) 0 : Nat)
    if v < -2147483648 ∨ 2147483647 < v then .error "stoi out of range" else .ok v

/-- `AttributeDescriptor::from_string` (src/g3d.h lines 364-381): tokenize on
`:`, demand the `g3d` literal, parse the five fields positionally (data type
before arity), `validate`, reject leftover tokens, then re-encode with
`to_string` and demand byte equality with the input. -/
def AttributeDescriptor.from_string (s : String) : Except String AttributeDescriptor :=
  match AttributeDescriptor.split s ':' with
  | [] => .error "Insufficient tokens"
  | t0 :: ts1 =>
    if t0 ≠ "g3d" then .error "Expected g3d" else
    match ts1 with
    | [] => .error "Insufficient tokens"
    | t1 :: ts2 =>
      match association_from_string t1 with
      | .error e => .error e
      | .ok a =>
        match ts2 with
        | [] => .error "Insufficient tokens"
        | t2 :: ts3 =>
          match attribute_type_from_string t2 with
          | .error e => .error e
          | .ok ty =>
            match ts3 with
            | [] => .error "Insufficient tokens"
            | t3 :: ts4 =>
              match stoi t3 with
              | .error e => .error e
              | .ok idx =>
                match ts4 with
                | [] => .error "Insufficient tokens"
                | t4 :: ts5 =>
                  match data_type_from_string t4 with
                  | .error e => .error e
                  | .ok dt =>
                    match ts5 with
                    | [] => .error "Insufficient tokens"
                    | t5 :: ts6 =>
                      match stoi t5 with
                      | .error e => .error e
                      | .ok ar =>
                        match AttributeDescriptor.validate ⟨a, ty, idx, ar, dt⟩ with
                        | .error e => .error e
                        | .ok _ =>
                          if ts6 ≠ [] then .error "Too many tokens"
                          else
                            match AttributeDescriptor.to_string ⟨a, ty, idx, ar, dt⟩ with
                            | .error e => .error e
                            | .ok tmp =>
                              if tmp ≠ s then
                                .error "Internal error: parsed attribute descriptor does not match generated attribute descriptor"
                              else .ok ⟨a, ty, idx, ar, dt⟩

/-- `data_element_size` of an attribute's descriptor (src/g3d.h lines 395-397):
`data_type_size() * data_arity()`. -/
def data_element_size (d : AttributeDescriptor) : Except String Int :=
  match data_type_size d._data_type with
  | .error e => .error e
  | .ok n => .ok (n * d._data_arity)

/-- `Attribute` (src/g3d.h lines 385-404): a descriptor plus the byte range
`[_begin, _end)`; pointers are modelled as `Nat` addresses, null as `0`. -/
structure Attribute where
  descriptor : AttributeDescriptor
  _begin : Nat
  _end : Nat
deriving DecidableEq, Repr

/-- The `Attribute` constructor (src/g3d.h lines 386-391): throw on a null
bound, then throw when the byte size is not a multiple of the element size. -/
def mkAttribute (desc : AttributeDescriptor) (b e : Nat) : Except String Attribute :=
  if b = 0 ∨ e = 0 then .error "Null parameters"
  else
    match data_element_size desc with
    | .error err => .error err
    | .ok es =>
      if ((e : Int) - (b : Int)) % es ≠ 0 then
        .error "Data buffer is not the correct alignment"
      else .ok ⟨desc, b, e⟩

/-- `Attribute::byte_size` (src/g3d.h lines 392-394): `_end - _begin`. -/
def Attribute.byte_size (a : Attribute) : Int := (a._end : Int) - (a._begin : Int)

/-- `Attribute::num_elements` (src/g3d.h lines 398-400):
`byte_size() / data_element_size()`. -/
def Attribute.num_elements (a : Attribute) : Except String Int :=
  match data_element_size a.descriptor with
  | .error e => .error e
  | .ok es => .ok (a.byte_size / es)

/-- The `AttributeBuilderOwn<T>` constructor (src/g3d.h lines 437-450), with
`sizeofT = sizeof(T)` and `data` modelled as the list of bytes readable from
the source pointer (`none` = `nullptr`). The member initializer builds a
zero-initialized buffer of `size` elements of `T` (here, at address 1) and the
`Attribute` over `[buffer.data(), buffer.data() + size)`; when `data` is
non-null the body runs `memcpy_s(begin(), size, data, size)`, which copies
`size` bytes. C++ reads past the end of a shorter source unchecked (undefined
behavior); the model truncates the read at the source's length. -/
def attribute_builder_own (desc : AttributeDescriptor) (size sizeofT : Nat)
    (data : Option (List Nat)) : Except String (List Nat × Attribute) :=
  let buffer : List Nat := List.replicate (size * sizeofT) 0
  match mkAttribute desc 1 (1 + size * sizeofT) with
  | .error e => .error e
  | .ok attr =>
    match data with
    | none => .ok (buffer, attr)
    | some src => .ok (src.take size ++ buffer.drop size, attr)

/-- The `G3d::builders` collection (src/g3d.h line 457), a string-keyed map of
attribute builders; each entry keeps the descriptor and the element count the
builder was created with. -/
abbrev G3dState := List (String × AttributeDescriptor × Nat)

/-- `G3d::add_attribute(const AttributeDescriptor&, size_t, T*)` (src/g3d.h
lines 473-489): key by `desc.to_string()`, throw when the key is already
present, otherwise insert the new builder under that key. (The source's
`builders.push_back(r)` does not exist on `std::map`; the declared map type and
the `builders.find(name)` duplicate check fix the intended keyed insertion
modelled here. Which builder variant is allocated does not affect the
collection.) -/
def add_attribute (g : G3dState) (desc : AttributeDescriptor) (size : Nat) :
    Except String G3dState :=
  match AttributeDescriptor.to_string desc with
  | .error e => .error e
  | .ok name =>
    if g.any (fun kv => kv.1 == name) then .error "Attribute descriptor already exists"
    else .ok (g ++ [(name, desc, size)])

/-- `G3d::add_attribute(const string&, size_t, T*)` (src/g3d.h lines 491-494):
parse the descriptor string, then delegate. -/
def add_attribute_str (g : G3dState) (s : String) (size : Nat) :
    Except String G3dState :=
  match AttributeDescriptor.from_string s with
  | .error e => .error e
  | .ok d => add_attribute g d size

/-- `G3d::add_vertex_normals` (src/g3d.h lines 516-518): delegates with the
literal descriptor string `"g3d:vertex:uv:0:float32:3"`. -/
def add_vertex_normals (g : G3dState) (size : Nat) : Except String G3dState :=
  add_attribute_str g "g3d:vertex:uv:0:float32:3" size

/-- `G3d::add_map_channel_data` (src/g3d.h lines 524-528): parse
`"g3d:none:map_channel_data:0:float32:3"`, overwrite the index with `id`, and
add. -/
def add_map_channel_data (g : G3dState) (id : Int) (size : Nat) :
    Except String G3dState :=
  match AttributeDescriptor.from_string "g3d:none:map_channel_data:0:float32:3" with
  | .error e => .error e
  | .ok desc => add_attribute g { desc with _attribute_type_index := id } size

/-- `G3d::add_map_channel_index` (src/g3d.h lines 530-534): parse
`"g3d:corner:map_channel_index:0:int32:1"`, overwrite the index with `id`, and
add. -/
def add_map_channel_index (g : G3dState) (id : Int) (size : Nat) :
    Except String G3dState :=
  match AttributeDescriptor.from_string "g3d:corner:map_channel_index:0:int32:1" with
  | .error e => .error e
  | .ok desc => add_attribute g { desc with _attribute_type_index := id } size

/-- `G3d::add_map_channel` (src/g3d.h lines 536-539): add the data channel
(`3 * num_texture_vertices` floats) then the index channel
(`3 * num_texture_faces` ints). -/
def add_map_channel (g : G3dState) (id : Int)
    (num_texture_vertices num_texture_faces : Nat) : Except String G3dState :=
  match add_map_channel_data g id (num_texture_vertices * 3) with
  | .error e => .error e
  | .ok g1 => add_map_channel_index g1 id (num_texture_faces * 3)

/-! ## Container framing (BFAST)

`src/` contains no serialization code; the container layer below is modelled
from the specification (sections 3, 4.6 and 6). -/

/-- Modelled from the spec: the canonical string grammar of section 6,
`g3d:<association-name>:<attribute-type-name>:<attribute-type-index>:<data-type-name>:<data-arity>`,
with names drawn from the registries; used for the container scenario's keys
since no writer/reader code exists under `src/`. -/
def to_canonical_string_spec (d : AttributeDescriptor) : Except String String :=
  match association_to_string d._association with
  | .error e => .error e
  | .ok a =>
    match attribute_type_to_string d._attribute_type with
    | .error e => .error e
    | .ok t =>
      match data_type_to_string d._data_type with
      | .error e => .error e
      | .ok dt =>
        .ok ("g3d:" ++ a ++ ":" ++ t ++ ":" ++ toString d._attribute_type_index
          ++ ":" ++ dt ++ ":" ++ toString d._data_arity)

/-- Modelled from the spec: a 4-byte little-endian two's-complement encoding of
one `int32` field (section 6, binary layout). -/
def int32_le_bytes (v : Int) : List Nat :=
  let u := (v % 4294967296).toNat
  [u % 256, u / 256 % 256, u / 65536 % 256, u / 16777216 % 256]

/-- Modelled from the spec: decode a 4-byte little-endian two's-complement
`int32` from the front of a byte list. -/
def int32_from_le (bs : List Nat) : Int :=
  let u := bs.getD 0 0 + 256 * bs.getD 1 0 + 65536 * bs.getD 2 0 + 16777216 * bs.getD 3 0
  if u < 2147483648 then (u : Int) else (u : Int) - 4294967296

/-- Modelled from the spec: the 32-byte binary descriptor record (section 6):
five little-endian `int32` fields in the order association, attribute_type,
attribute_type_index, data_arity, data_type, then 12 reserved zero bytes. -/
def encode_descriptor (d : AttributeDescriptor) : List Nat :=
  int32_le_bytes d._association ++ int32_le_bytes d._attribute_type
    ++ int32_le_bytes d._attribute_type_index ++ int32_le_bytes d._data_arity
    ++ int32_le_bytes d._data_type ++ List.replicate 12 0

/-- Modelled from the spec: read one 32-byte descriptor record (reserved bytes
ignored on read, per section 4.2). -/
def decode_descriptor (bs : List Nat) : AttributeDescriptor :=
  ⟨int32_from_le bs, int32_from_le (bs.drop 4), int32_from_le (bs.drop 8),
   int32_from_le (bs.drop 12), int32_from_le (bs.drop 16)⟩

/-- One attribute of a collection as the container sees it: its descriptor,
its data bytes, and its index bytes. -/
abbrev AttrEntry := AttributeDescriptor × List Nat × List Nat

/-- Slice a byte list into consecutive 32-byte records (fueled so that it
computes by reduction). -/
def chunk32_go : Nat → List Nat → List (List Nat)
  | 0, _ => []
  | _, [] => []
  | fuel + 1, b :: bs => ((b :: bs).take 32) :: chunk32_go fuel ((b :: bs).drop 32)

/-- Slice the descriptor table into 32-byte records. -/
def chunk32 (bs : List Nat) : List (List Nat) := chunk32_go bs.length bs

/-- Modelled from the spec: the BFAST write contract (section 4.6): array 0 is
the opaque metadata, array 1 the concatenated descriptor records in key order,
then for each attribute its data array followed by its index array. -/
def bfast_write (meta : List Nat) (attrs : List AttrEntry) : List (List Nat) :=
  meta :: (attrs.map (fun a => encode_descriptor a.1)).flatten
    :: attrs.flatMap (fun a => [a.2.1, a.2.2])

/-- Modelled from the spec: validate every decoded descriptor via section 4.2
(`AttributeDescriptor::validate` from the source). -/
def validate_all : List AttributeDescriptor → Except String Unit
  | [] => .ok ()
  | d :: ds =>
    match AttributeDescriptor.validate d with
    | .error e => .error e
    | .ok _ => validate_all ds

/-- Modelled from the spec: pair descriptor `i` with arrays `2+2i` and
`2+2i+1`, failing with `AlignmentError` when a data array's length is not a
multiple of its descriptor's element size (sections 4.3 and 4.6). -/
def pair_up : List AttributeDescriptor → List (List Nat) → Except String (List AttrEntry)
  | [], [] => .ok []
  | d :: ds, dataArr :: idxArr :: rest =>
    match data_element_size d with
    | .error e => .error e
    | .ok es =>
      if ((dataArr.length : Int)) % es ≠ 0 then .error "AlignmentError"
      else
        match pair_up ds rest with
        | .error e => .error e
        | .ok tail => .ok ((d, dataArr, idxArr) :: tail)
  | _, _ => .error "ArrayCountMismatchError"

/-- Modelled from the spec: the BFAST read contract (section 4.6): array 0 is
opaque metadata, array 1 is sliced into 32-byte records and validated, the
total array count must be `2 + 2N`, and descriptor `i` is paired with arrays
`2+2i` (data) and `2+2i+1` (index). -/
def bfast_read (arrays : List (List Nat)) : Except String (List Nat × List AttrEntry) :=
  match arrays with
  | meta :: table :: rest =>
    let descs := (chunk32 table).map decode_descriptor
    if rest.length + 2 ≠ 2 + 2 * descs.length then .error "ArrayCountMismatchError"
    else
      match validate_all descs with
      | .error e => .error e
      | .ok _ =>
        match pair_up descs rest with
        | .error e => .error e
        | .ok entries => .ok (meta, entries)
  | _ => .error "ArrayCountMismatchError"

/-! ## Named descriptors used by the claims -/

/-- The descriptor `(vertex, coordinate, 0, float32, arity 3)`. -/
def descCoordF32x3 : AttributeDescriptor :=
  ⟨assoc_vertex, attr_coordinate, 0, 3, dt_float32⟩

/-- The descriptor `(corner, index, 0, int32, arity 1)`. -/
def descIndexI32 : AttributeDescriptor :=
  ⟨assoc_corner, attr_index, 0, 1, dt_int32⟩

/-- The descriptor `(vertex, uv, 0, float32, arity 2)`. -/
def descUv0 : AttributeDescriptor := ⟨assoc_vertex, attr_uv, 0, 2, dt_float32⟩

/-- The descriptor `(vertex, uv, 1, float32, arity 2)`. -/
def descUv1 : AttributeDescriptor := ⟨assoc_vertex, attr_uv, 1, 2, dt_float32⟩

/-- The descriptor `(vertex, custom, 0, uint32, arity 1)`. -/
def descU32 : AttributeDescriptor := ⟨assoc_vertex, attr_custom, 0, 1, dt_uint32⟩

/-- The two-attribute collection of the container scenario, parametrized by
the payload bytes of its data arrays (both attributes are data-only). -/
def c8_attrs (data0 data1 : List Nat) : List AttrEntry :=
  [(descCoordF32x3, data0, []), (descIndexI32, data1, [])]

/-- The descriptor table of the container scenario. -/
def c8_table : List Nat := encode_descriptor descCoordF32x3 ++ encode_descriptor descIndexI32

/-! ## Claim-side predicates -/

/-- The result of `validate` is one of the three out-of-range failures, which
the specification groups as `RangeError`. -/
def is_range_error (e : Except String Unit) : Prop :=
  e = .error "association out of range" ∨ e = .error "attribute type out of range"
    ∨ e = .error "data type out of range"

deriving instance DecidableEq for Except

instance (e : Except String Unit) : Decidable (is_range_error e) := by
  unfold is_range_error; infer_instance

/-! ## Claim theorems -/

/-- C1: evaluation at the failing input. The valid descriptor
`(vertex, coordinate, 0, float32, arity 3)` encodes to
`"g3d:vertex:color:0:float32:3"` — the attribute-type token is computed from
the data type (`dt_float32 = 11` named through the attribute-type table as
`"color"`) — and parsing that canonical string yields
`attribute_type = attr_color`, not `attr_coordinate`, so
`from_string (to_string d)` differs from `d` on `_attribute_type`. -/
theorem c1_roundtrip_fails_eval :
    AttributeDescriptor.validate descCoordF32x3 = .ok ()
    ∧ AttributeDescriptor.to_string descCoordF32x3 = .ok "g3d:vertex:color:0:float32:3"
    ∧ AttributeDescriptor.from_string "g3d:vertex:color:0:float32:3" =
        .ok ⟨assoc_vertex, attr_color, 0, 3, dt_float32⟩
    ∧ (⟨assoc_vertex, attr_color, 0, 3, dt_float32⟩ : AttributeDescriptor) ≠ descCoordF32x3 := by
  refine ⟨rfl, rfl, rfl, ?_⟩
  decide

/-- C2: `data_type_size` returns exactly the specified byte width for each of
the fourteen non-invalid data types and fails for `dt_invalid`. -/
theorem c2_data_type_size_table :
    data_type_size dt_uint8 = .ok 1 ∧ data_type_size dt_uint16 = .ok 2
    ∧ data_type_size dt_uint32 = .ok 4 ∧ data_type_size dt_uint64 = .ok 8
    ∧ data_type_size dt_uint128 = .ok 16 ∧ data_type_size dt_int8 = .ok 1
    ∧ data_type_size dt_int16 = .ok 2 ∧ data_type_size dt_int32 = .ok 4
    ∧ data_type_size dt_int64 = .ok 8 ∧ data_type_size dt_int128 = .ok 16
    ∧ data_type_size dt_float16 = .ok 2 ∧ data_type_size dt_float32 = .ok 4
    ∧ data_type_size dt_float64 = .ok 8 ∧ data_type_size dt_float128 = .ok 16
    ∧ data_type_size dt_invalid = .error "invalid data type" := by
  decide

/-- C3: evaluation at the failing input. `attr_mapchannel_data` (18) and
`attr_mapchannel_index` (19) lie strictly below the `attr_invalid` sentinel,
yet the attribute-type registry has no entry for them: `name_of` fails with
the lookup error, and neither the spec's names nor the source's own
`"map_channel_data"` / `"map_channel_index"` strings resolve to a value. -/
theorem c3_attribute_type_registry_incomplete :
    attr_mapchannel_data < attr_invalid ∧ attr_mapchannel_index < attr_invalid
    ∧ attribute_type_to_string attr_mapchannel_data = .error "map::at"
    ∧ attribute_type_to_string attr_mapchannel_index = .error "map::at"
    ∧ attribute_type_from_string "mapchannel_data" = .error "map::at"
    ∧ attribute_type_from_string "mapchannel_index" = .error "map::at"
    ∧ attribute_type_from_string "map_channel_data" = .error "map::at"
    ∧ attribute_type_from_string "map_channel_index" = .error "map::at" := by
  refine ⟨by decide, by decide, rfl, rfl, rfl, rfl, rfl, rfl⟩

/-- C6: evaluation at the failing input. For the owning builder with
`element_count = 4`, `sizeof(T) = 4` (uint32, arity 1, element size 4) and a
16-byte source, the constructor's `memcpy_s(begin(), size, data, size)` copies
only `size = 4` bytes — the element count, not the
`element_count * data_element_size = 16` bytes the claim requires — and no
source-length check exists, so no `CopyRangeError` is ever raised. -/
theorem c6_owning_copy_truncated :
    data_element_size descU32 = .ok 4
    ∧ attribute_builder_own descU32 4 4
        (some [1, 2, 3, 4, 5, 6, 7, 8, 9, 10, 11, 12, 13, 14, 15, 16]) =
      .ok ([1, 2, 3, 4, 0, 0, 0, 0, 0, 0, 0, 0, 0, 0, 0, 0], ⟨descU32, 1, 17⟩)
    ∧ ([1, 2, 3, 4, 0, 0, 0, 0, 0, 0, 0, 0, 0, 0, 0, 0] : List Nat) ≠
        [1, 2, 3, 4, 5, 6, 7, 8, 9, 10, 11, 12, 13, 14, 15, 16] := by
  refine ⟨rfl, rfl, ?_⟩
  decide

/-- C7: evaluation at the failing input. `add_map_channel_data` parses the
literal `"g3d:none:map_channel_data:0:float32:3"`, whose attribute-type token
has no registry entry, so the lookup throws and `add_map_channel` adds nothing
for any collection, id, or sizes — no attribute keyed
`g3d:none:mapchannel_data:1:float32:3` or
`g3d:corner:mapchannel_index:1:int32:1` is ever created. -/
theorem c7_add_map_channel_always_fails :
    ∀ (g : G3dState) (id : Int) (ntv ntf : Nat),
      AttributeDescriptor.from_string "g3d:none:map_channel_data:0:float32:3" =
        .error "map::at"
      ∧ add_map_channel_data g id ntv = .error "map::at"
      ∧ add_map_channel g id ntv ntf = .error "map::at"
      ∧ add_map_channel [] 1 3 2 = .error "map::at" :=
  fun _ _ _ _ => ⟨rfl, rfl, rfl, rfl⟩

/-- C10 counterexample: at collection `[]` and size `3`, `add_vertex_normals`
does not register anything — the claim's "registers its attribute under
`g3d:vertex:uv:0:float32:3`" fails because `from_string`'s re-encoding
self-check rejects the string (its re-encoding is
`"g3d:vertex:color:0:float32:3"`). -/
theorem c10_add_vertex_normals_counterexample :
    add_vertex_normals [] 3 =
      .error "Internal error: parsed attribute descriptor does not match generated attribute descriptor"
    ∧ ∀ g2 : G3dState, add_vertex_normals [] 3 ≠ .ok g2 :=
  ⟨rfl, fun _ h => Except.noConfusion h⟩

/-- C10 amended: `add_vertex_normals` does use the descriptor string
`"g3d:vertex:uv:0:float32:3"` (role `uv`, arity 3, not `normal`), but for
every collection and size the call fails with the internal-consistency error
from `from_string` — so nothing is registered, and in particular a collection
built via `add_vertex_normals` contains no `normal`-role channel. -/
theorem c10_add_vertex_normals_amended :
    ∀ (g : G3dState) (size : Nat),
      AttributeDescriptor.from_string "g3d:vertex:uv:0:float32:3" =
        .error "Internal error: parsed attribute descriptor does not match generated attribute descriptor"
      ∧ add_vertex_normals g size =
        .error "Internal error: parsed attribute descriptor does not match generated attribute descriptor" :=
  fun _ _ => ⟨rfl, rfl⟩

/-- C9 counterexample: for the descriptor `(0, 0, 0, arity 0, data_type 14)`
the data type is out of its enum's valid span, so the claim's "fails with a
RangeError exactly when ... data_type lies outside its enum's valid span"
demands a RangeError — but `validate` checks arity before data_type and fails
with the ArityError instead. -/
theorem c9_validate_counterexample :
    dt_invalid ≤ (⟨0, 0, 0, 0, 14⟩ : AttributeDescriptor)._data_type
    ∧ AttributeDescriptor.validate ⟨0, 0, 0, 0, 14⟩ =
        .error "data arity must be greater than zero"
    ∧ ¬ is_range_error (AttributeDescriptor.validate ⟨0, 0, 0, 0, 14⟩) := by
  refine ⟨by decide, rfl, by decide⟩

/-- C9 amended: `validate` succeeds exactly when all three enum fields are in
their valid spans and the arity is positive; it fails with a RangeError
exactly when association or attribute_type is out of span, or data_type is out
of span while the arity is positive; and it fails with the ArityError exactly
when the arity is non-positive while association and attribute_type are in
span (the checks run in the order association, attribute_type, arity,
data_type). -/
theorem c9_validate_amended :
    ∀ d : AttributeDescriptor,
      (AttributeDescriptor.validate d = .ok () ↔
        (0 ≤ d._association ∧ d._association < assoc_invalid
         ∧ 0 ≤ d._attribute_type ∧ d._attribute_type < attr_invalid
         ∧ 0 < d._data_arity
         ∧ 0 ≤ d._data_type ∧ d._data_type < dt_invalid))
      ∧ (is_range_error (AttributeDescriptor.validate d) ↔
          ((d._association < 0 ∨ assoc_invalid ≤ d._association)
           ∨ (d._attribute_type < 0 ∨ attr_invalid ≤ d._attribute_type)
           ∨ ((d._data_type < 0 ∨ dt_invalid ≤ d._data_type) ∧ 0 < d._data_arity)))
      ∧ (AttributeDescriptor.validate d = .error "data arity must be greater than zero" ↔
          (¬(d._association < 0 ∨ assoc_invalid ≤ d._association)
           ∧ ¬(d._attribute_type < 0 ∨ attr_invalid ≤ d._attribute_type)
           ∧ d._data_arity ≤ 0)) := by
  intro d
  unfold AttributeDescriptor.validate is_range_error
  simp only [assoc_invalid, attr_invalid, dt_invalid] at *
  split_ifs with h1 h2 h3 h4 <;>
    refine ⟨?_, ?_, ?_⟩ <;>
    first
      | exact iff_of_true (by decide) (by omega)
      | exact iff_of_false (by decide) (by omega)

/-- C4: with the descriptor `(vertex, coordinate, 0, float32, arity 3)`
(element size 12), an 11-byte range fails with the alignment error while a
24-byte range succeeds with `num_elements = 2`; and in general, for non-null
bounds and a defined positive element size, construction succeeds exactly when
the byte size is a multiple of the element size, fails with the alignment
error otherwise, and on success `num_elements = byte_size / data_element_size`. -/
theorem c4_attribute_alignment :
    (data_element_size descCoordF32x3 = .ok 12
     ∧ mkAttribute descCoordF32x3 1000 1011 = .error "Data buffer is not the correct alignment"
     ∧ mkAttribute descCoordF32x3 1000 1024 = .ok ⟨descCoordF32x3, 1000, 1024⟩
     ∧ Attribute.num_elements ⟨descCoordF32x3, 1000, 1024⟩ = .ok 2)
    ∧ ∀ (desc : AttributeDescriptor) (b e : Nat) (es : Int),
        b ≠ 0 → e ≠ 0 → data_element_size desc = .ok es → 0 < es →
        ((mkAttribute desc b e = .ok ⟨desc, b, e⟩ ↔ ((e : Int) - (b : Int)) % es = 0)
         ∧ (((e : Int) - (b : Int)) % es ≠ 0 →
             mkAttribute desc b e = .error "Data buffer is not the correct alignment")
         ∧ (mkAttribute desc b e = .ok ⟨desc, b, e⟩ →
             Attribute.num_elements ⟨desc, b, e⟩ = .ok (((e : Int) - (b : Int)) / es))) := by
  refine ⟨⟨rfl, rfl, rfl, rfl⟩, ?_⟩
  intro desc b e es hb he hes hpos
  unfold mkAttribute Attribute.num_elements Attribute.byte_size
  simp only [hes, hb, he, or_self, if_false, ite_not]
  constructor
  · constructor
    · intro h
      by_cases hm : ((e : Int) - (b : Int)) % es = 0
      · exact hm
      · simp [hm] at h
    · intro hm
      simp [hm]
  · constructor
    · intro hm
      simp [hm]
    · intro h
      trivial

/-- Witness for C4's general part, at the descriptor
`(vertex, coordinate, 0, float32, arity 3)` over the byte range
`[1000, 1024)`. -/
theorem c4_attribute_alignment_witness :
    (mkAttribute descCoordF32x3 1000 1024 = .ok ⟨descCoordF32x3, 1000, 1024⟩ ↔
      (((1024 : Nat) : Int) - ((1000 : Nat) : Int)) % 12 = 0)
    ∧ ((((1024 : Nat) : Int) - ((1000 : Nat) : Int)) % 12 ≠ 0 →
        mkAttribute descCoordF32x3 1000 1024 = .error "Data buffer is not the correct alignment")
    ∧ (mkAttribute descCoordF32x3 1000 1024 = .ok ⟨descCoordF32x3, 1000, 1024⟩ →
        Attribute.num_elements ⟨descCoordF32x3, 1000, 1024⟩ =
          .ok ((((1024 : Nat) : Int) - ((1000 : Nat) : Int)) / 12)) :=
  c4_attribute_alignment.2 descCoordF32x3 1000 1024 12 (by decide) (by decide) rfl (by decide)

/-- C5: insertion into the collection is keyed by the canonical descriptor
string: when two descriptors encode to the identical string, the first add
succeeds and the second fails with the duplicate error (the failure happens
before any insertion, so the collection value is only produced by successful
calls); adding `uv` index 0 then `uv` index 1 (arity 2, float32) produces two
distinct keys and both succeed. -/
theorem c5_duplicate_key :
    (∀ (g : G3dState) (d1 d2 : AttributeDescriptor) (s : String) (n1 n2 : Nat) (g1 : G3dState),
        AttributeDescriptor.to_string d1 = .ok s →
        AttributeDescriptor.to_string d2 = .ok s →
        add_attribute g d1 n1 = .ok g1 →
        add_attribute g1 d2 n2 = .error "Attribute descriptor already exists")
    ∧ (AttributeDescriptor.to_string descUv0 = .ok "g3d:vertex:color:0:float32:2"
       ∧ AttributeDescriptor.to_string descUv1 = .ok "g3d:vertex:color:1:float32:2"
       ∧ add_attribute [] descUv0 4 = .ok [("g3d:vertex:color:0:float32:2", descUv0, 4)]
       ∧ add_attribute [("g3d:vertex:color:0:float32:2", descUv0, 4)] descUv1 4 =
           .ok [("g3d:vertex:color:0:float32:2", descUv0, 4),
                ("g3d:vertex:color:1:float32:2", descUv1, 4)]) := by
  constructor
  · intro g d1 d2 s n1 n2 g1 h1 h2 hadd
    unfold add_attribute at hadd ⊢
    rw [h1] at hadd
    rw [h2]
    by_cases hc : g.any (fun kv => kv.1 == s)
    · simp [hc] at hadd
    · simp [hc] at hadd
      have hmem : (g1.any (fun kv => kv.1 == s)) = true := by
        rw [← hadd]
        simp [List.any_append]
      simp [hmem]
  · exact ⟨rfl, rfl, rfl, rfl⟩

/-- Witness for C5's general part: adding a descriptor whose canonical string
is already a key of the collection fails with the duplicate error. -/
theorem c5_duplicate_key_witness :
    add_attribute [("g3d:vertex:color:0:float32:2", descUv0, 4)] descUv0 4 =
      .error "Attribute descriptor already exists" :=
  c5_duplicate_key.1 [] descUv0 descUv0 "g3d:vertex:color:0:float32:2" 4 4
    [("g3d:vertex:color:0:float32:2", descUv0, 4)] rfl rfl rfl

/-- C8 (container layer modelled from the spec, there being no serialization
code under `src/`): for any metadata and any payloads of 48 and 24 bytes, the
two-attribute collection (`(vertex, coordinate, 0, float32, 3)` with 4
vertices, data-only, and `(corner, index, 0, int32, 1)` with 6 indices,
data-only) serializes to exactly 6 arrays — metadata, the 64-byte descriptor
table, data0 (48 bytes), index0 (0 bytes), data1 (24 bytes), index1 (0 bytes),
i.e. `2 + 2N` arrays for `N = 2` — deserializing that array stream
reconstructs the collection with byte-identical contents, and the two
descriptors carry the claimed canonical keys. -/
theorem c8_container_roundtrip :
    ∀ (meta data0 data1 : List Nat),
      data0.length = 48 → data1.length = 24 →
      (bfast_write meta (c8_attrs data0 data1) = [meta, c8_table, data0, [], data1, []]
       ∧ (bfast_write meta (c8_attrs data0 data1)).length = 6
       ∧ c8_table.length = 64
       ∧ bfast_read (bfast_write meta (c8_attrs data0 data1)) = .ok (meta, c8_attrs data0 data1)
       ∧ to_canonical_string_spec descCoordF32x3 = .ok "g3d:vertex:coordinate:0:float32:3"
       ∧ to_canonical_string_spec descIndexI32 = .ok "g3d:corner:index:0:int32:1") := by
  intro meta data0 data1 h0 h1
  have hW : bfast_write meta (c8_attrs data0 data1) = [meta, c8_table, data0, [], data1, []] := rfl
  refine ⟨hW, rfl, rfl, ?_, rfl, rfl⟩
  rw [hW]
  have hT : (chunk32 c8_table).map decode_descriptor = [descCoordF32x3, descIndexI32] := by decide
  have he1 : data_element_size descCoordF32x3 = .ok 12 := rfl
  have he2 : data_element_size descIndexI32 = .ok 4 := rfl
  have hm0 : ((data0.length : Int)) % 12 = 0 := by rw [h0]; decide
  have hm1 : ((data1.length : Int)) % 4 = 0 := by rw [h1]; decide
  have hV : validate_all [descCoordF32x3, descIndexI32] = .ok () := rfl
  have hp : pair_up [descCoordF32x3, descIndexI32] [data0, [], data1, []] =
      .ok [(descCoordF32x3, data0, []), (descIndexI32, data1, [])] := by
    simp only [pair_up, he1, he2]
    rw [if_neg (by simp [hm0]), if_neg (by simp [hm1])]
  simp only [bfast_read, hT, hV, hp, List.length_cons, List.length_nil]
  norm_num [c8_attrs]

/-- Witness for C8, with 48 bytes of `1` and 24 bytes of `2` as the payloads. -/
theorem c8_container_roundtrip_witness :
    bfast_read (bfast_write [] (c8_attrs (List.replicate 48 1) (List.replicate 24 2))) =
      .ok ([], c8_attrs (List.replicate 48 1) (List.replicate 24 2)) :=
  (c8_container_roundtrip [] (List.replicate 48 1) (List.replicate 24 2)
    (by decide) (by decide)).2.2.2.1
